import Mathlib

/-!
Shallow embedding of the compute-node hypervisor driver
(nova/virt/libvirt_conn.py and collaborators) and proofs of the
security-group, image-cache, lifecycle and resource-reporting claims.

Machine integers of the source are modelled as Nat/Int; fallible code
returns Except; the filesystem and the engine states are explicit data.
-/

namespace Nova

/-! ## String utilities -/

/-- Concatenation of a list of strings, in order; this is the semantics of
building a string by successive += in a loop. -/
def strConcat : List String → String
  | [] => ""
  | s :: ss => s ++ strConcat ss

/-! ## Security-group data model (§3 of the spec, read-only store view) -/

/-- A CIDR as the source consumes it through the IPy library:
the raw text plus the values of the IPy calls version(), net(),
netmask() and prefixlen() made on it.  IPy is an external library, so its
outputs are carried as data of the input. -/
structure Cidr where
  text : String
  version : Nat
  net : String
  netmask : String
  prefixlen : String
deriving DecidableEq

/-- A security-group rule row: protocol in tcp/udp/icmp, optional CIDR,
from_port and to_port (for icmp these are type and code, -1 meaning any). -/
structure SecurityGroupRule where
  protocol : String
  cidr : Option Cidr
  from_port : Int
  to_port : Int
deriving DecidableEq

/-! ## IptablesFirewallDriver.instance_rules
(nova/virt/libvirt_conn.py lines 1680-1777) -/

/-- The icmp type argument computation of instance_rules: None when the
type is -1, otherwise the type, with /code appended when the code is
not -1 (lines 1753-1761). -/
def icmpTypeArg (from_port to_port : Int) : Option String :=
  if from_port = -1 then none
  else
    if to_port = -1 then some (toString from_port)
    else some (toString from_port ++ "/" ++ toString to_port)

/-- The per-rule iptables argument list of instance_rules for a rule that
has a CIDR (lines 1733-1772). -/
def ruleArgs (r : SecurityGroupRule) (c : Cidr) : List String :=
  let protocol := if c.version == 6 && r.protocol == "icmp" then "icmpv6" else r.protocol
  let args := ["-p", protocol, "-s", c.text]
  let args :=
    if r.protocol == "udp" || r.protocol == "tcp" then
      if r.from_port == r.to_port then
        args ++ ["--dport", toString r.from_port]
      else
        args ++ ["-m", "multiport", "--dports",
                 toString r.from_port ++ ":" ++ toString r.to_port]
    else
      if r.protocol == "icmp" then
        match icmpTypeArg r.from_port r.to_port with
        | none => args
        | some t =>
          if c.version == 4 then args ++ ["-m", "icmp", "--icmp-type", t]
          else
            if c.version == 6 then args ++ ["-m", "icmp6", "--icmpv6-type", t]
            else args
      else args
  args ++ ["-j ACCEPT"]

/-- The joined rule line appended to the chain (line 1772). -/
def ruleLine (r : SecurityGroupRule) (c : Cidr) : String :=
  String.intercalate (" ") (ruleArgs r c)

/-- One iteration of the security-group loop of instance_rules: rules
without a CIDR are skipped, version 4 rules go to the ipv4 list, others to
the ipv6 list (lines 1725-1772). -/
def sgRuleStep (acc : List String × List String) (r : SecurityGroupRule) :
    List String × List String :=
  match r.cidr with
  | none => acc
  | some c =>
    let line := ruleLine r c
    if c.version == 4 then (acc.1 ++ [line], acc.2) else (acc.1, acc.2 ++ [line])

/-- Python truthiness of an optional string (None and the empty string are
falsy). -/
def pyTruthyStr : Option String → Bool
  | none => false
  | some s => !(s.isEmpty)

/-- Everything instance_rules reads from the flags and the store. -/
structure InstanceRulesEnv where
  allow_project_net_traffic : Bool
  use_ipv6 : Bool
  dhcp_server : String
  gateway_v6 : Option String
  project_cidr : String
  project_cidr_v6 : String
  security_groups : List (List SecurityGroupRule)
deriving DecidableEq

/-- IptablesFirewallDriver.instance_rules (lines 1680-1777): builds the
ordered ipv4 and ipv6 rule lists for one instance. -/
def instance_rules (env : InstanceRulesEnv) : List String × List String :=
  let ipv4_rules : List String := ["-m state --state INVALID -j DROP"]
  let ipv6_rules : List String := ["-m state --state INVALID -j DROP"]
  let ipv4_rules := ipv4_rules ++ ["-m state --state ESTABLISHED,RELATED -j ACCEPT"]
  let ipv6_rules := ipv6_rules ++ ["-m state --state ESTABLISHED,RELATED -j ACCEPT"]
  let ipv4_rules := ipv4_rules ++
    ["-s " ++ env.dhcp_server ++ " -p udp --sport 67 --dport 68 -j ACCEPT"]
  let ipv4_rules :=
    if env.allow_project_net_traffic then
      ipv4_rules ++ ["-s " ++ env.project_cidr ++ " -j ACCEPT"]
    else ipv4_rules
  let ipv6_rules :=
    if env.use_ipv6 && pyTruthyStr env.gateway_v6 then
      ipv6_rules ++ ["-s " ++ env.gateway_v6.getD ("") ++ "/128 -p icmpv6 -j ACCEPT"]
    else ipv6_rules
  let ipv6_rules :=
    if env.use_ipv6 && env.allow_project_net_traffic then
      ipv6_rules ++ ["-s " ++ env.project_cidr_v6 ++ " -j ACCEPT"]
    else ipv6_rules
  let acc := (env.security_groups.flatten).foldl sgRuleStep (ipv4_rules, ipv6_rules)
  (acc.1 ++ ["-j $sg-fallback"], acc.2 ++ ["-j $sg-fallback"])

/-- The version 4 accept lines produced by the security-group loop, in
order: one line per rule carrying a version 4 CIDR. -/
def sgLinesV4 (rules : List SecurityGroupRule) : List String :=
  rules.filterMap fun r =>
    match r.cidr with
    | none => none
    | some c => if c.version == 4 then some (ruleLine r c) else none

/-- The version 6 accept lines produced by the security-group loop. -/
def sgLinesV6 (rules : List SecurityGroupRule) : List String :=
  rules.filterMap fun r =>
    match r.cidr with
    | none => none
    | some c => if c.version == 4 then none else some (ruleLine r c)

/-! ## The host packet-filter chain state
(IptablesManager of nova/network/linux_net.py is not under src/). -/

/-- Modelled from the spec: the kernel packet-filter table of
nova/network/linux_net.py (not under src/), as a mapping from chain name
to its ordered rule list; add_chain creates an empty chain, add_rule
appends to a chain, remove_chain deletes the chain. -/
abbrev IptablesTable := List (String × List String)

/-- Look a chain up by name. -/
def lookupChain (t : IptablesTable) (name : String) : Option (List String) :=
  match t.find? (fun p => p.1 == name) with
  | none => none
  | some p => some p.2

/-- Modelled from the spec: add_chain of the packet-filter manager. -/
def addChain (t : IptablesTable) (name : String) : IptablesTable :=
  match lookupChain t name with
  | some _ => t
  | none => t ++ [(name, [])]

/-- Modelled from the spec: add_rule of the packet-filter manager; the
rule is appended to the named chain (the chain is created when absent). -/
def addRule (t : IptablesTable) (name rule : String) : IptablesTable :=
  match lookupChain t name with
  | some _ => t.map fun p => if p.1 == name then (p.1, p.2 ++ [rule]) else p
  | none => t ++ [(name, [rule])]

/-- Modelled from the spec: remove_chain of the packet-filter manager. -/
def removeChain (t : IptablesTable) (name : String) : IptablesTable :=
  t.filter fun p => !(p.1 == name)

/-- The two filter tables the driver programs (ipv4 and ipv6). -/
structure IptablesManager where
  ipv4_filter : IptablesTable
  ipv6_filter : IptablesTable
deriving DecidableEq

/-- IptablesFirewallDriver.__init__ (lines 1615-1624): starting from the
given manager state, add an sg-fallback chain with a single DROP rule in
each table. -/
def iptablesDriverInit (m : IptablesManager) : IptablesManager :=
  let v4 := addChain m.ipv4_filter ("sg-fallback")
  let v4 := addRule v4 ("sg-fallback") ("-j DROP")
  let v6 := addChain m.ipv6_filter ("sg-fallback")
  let v6 := addRule v6 ("sg-fallback") ("-j DROP")
  { ipv4_filter := v4, ipv6_filter := v6 }

/-- The empty manager state. -/
def emptyManager : IptablesManager := { ipv4_filter := [], ipv6_filter := [] }

/-- An instance as the firewall drivers consume it: id and name. -/
structure Instance where
  id : Nat
  name : String
deriving DecidableEq

/-- IptablesFirewallDriver._instance_chain_name (lines 1795-1796). -/
def instanceChainName (inst : Instance) : String :=
  "inst-" ++ toString inst.id

/-- IptablesFirewallDriver state: the manager plus the instance-id map
self.instances. -/
structure IptablesDriverState where
  manager : IptablesManager
  instances : List Nat
deriving DecidableEq

/-- IptablesFirewallDriver.add_filters_for_instance (lines 1647-1671):
create the per-instance chain in each table, jump to it from local, and
append the instance_rules lines. -/
def addFiltersForInstance (st : IptablesDriverState) (inst : Instance)
    (ipv4_address ipv6_address : String) (env : InstanceRulesEnv) :
    IptablesDriverState :=
  let chain := instanceChainName inst
  let v4 := addChain st.manager.ipv4_filter chain
  let v4 := addRule v4 ("local") ("-d " ++ ipv4_address ++ " -j $" ++ chain)
  let v6 :=
    if env.use_ipv6 then
      let v6 := addChain st.manager.ipv6_filter chain
      addRule v6 ("local") ("-d " ++ ipv6_address ++ " -j $" ++ chain)
    else st.manager.ipv6_filter
  let rules := instance_rules env
  let v4 := rules.1.foldl (fun t rule => addRule t chain rule) v4
  let v6 :=
    if env.use_ipv6 then rules.2.foldl (fun t rule => addRule t chain rule) v6
    else v6
  { st with manager := { ipv4_filter := v4, ipv6_filter := v6 } }

/-- IptablesFirewallDriver.prepare_instance_filter (lines 1642-1645):
record the instance and add its filters. -/
def iptablesPrepareInstanceFilter (st : IptablesDriverState) (inst : Instance)
    (ipv4_address ipv6_address : String) (env : InstanceRulesEnv) :
    IptablesDriverState :=
  let st := { st with instances := st.instances ++ [inst.id] }
  addFiltersForInstance st inst ipv4_address ipv6_address env

/-- IptablesFirewallDriver.remove_filters_for_instance (lines 1673-1678). -/
def removeFiltersForInstance (m : IptablesManager) (inst : Instance)
    (use_ipv6 : Bool) : IptablesManager :=
  let chain := instanceChainName inst
  { ipv4_filter := removeChain m.ipv4_filter chain,
    ipv6_filter := if use_ipv6 then removeChain m.ipv6_filter chain else m.ipv6_filter }

/-- IptablesFirewallDriver.unfilter_instance (lines 1634-1640): when the
instance is in self.instances it is popped and its chains removed;
otherwise only a log line is emitted. -/
def iptablesUnfilterInstance (st : IptablesDriverState) (inst : Instance)
    (use_ipv6 : Bool) : IptablesDriverState :=
  if inst.id ∈ st.instances then
    { manager := removeFiltersForInstance st.manager inst use_ipv6,
      instances := st.instances.erase inst.id }
  else st

/-! ## NWFilterFirewall: security-group filter XML
(nova/virt/libvirt_conn.py lines 1326-1611) -/

/-- The v6protocol mapping of security_group_to_nwfilter_xml (line 1576);
the dict has exactly the keys tcp, udp and icmp. -/
def v6protocol (p : String) : String :=
  if p == "tcp" then "tcp-ipv6"
  else if p == "udp" then "udp-ipv6"
  else if p == "icmp" then "icmpv6" else p

/-- The icmp attribute text of security_group_to_nwfilter_xml (lines
1596-1599): the type attribute is appended when from_port is not -1, the
code attribute independently when to_port is not -1. -/
def nwfilterIcmpAttrs (from_port to_port : Int) : String :=
  (if from_port ≠ -1 then "type=\x27" ++ toString from_port ++ "\x27 " else "")
  ++ (if to_port ≠ -1 then "code=\x27" ++ toString to_port ++ "\x27 " else "")

/-- The XML text contributed by one rule in
security_group_to_nwfilter_xml (lines 1577-1602).  A rule without a CIDR
contributes an accept element with no condition inside it. -/
def nwfilterRuleXml (use_ipv6 : Bool) (r : SecurityGroupRule) : String :=
  let s := "<rule action=\x27accept\x27 direction=\x27in\x27 priority=\x27300\x27>"
  match r.cidr with
  | none => s ++ "</rule>\n"
  | some c =>
    let s :=
      if use_ipv6 && c.version == 6 then
        s ++ "<" ++ v6protocol r.protocol ++ " srcipaddr=\x27" ++ c.net ++
          "\x27 srcipmask=\x27" ++ c.prefixlen ++ "\x27 "
      else
        s ++ "<" ++ r.protocol ++ " srcipaddr=\x27" ++ c.net ++
          "\x27 srcipmask=\x27" ++ c.netmask ++ "\x27 "
    let s :=
      if r.protocol == "tcp" || r.protocol == "udp" then
        s ++ "dstportstart=\x27" ++ toString r.from_port ++
          "\x27 dstportend=\x27" ++ toString r.to_port ++ "\x27 "
      else
        if r.protocol == "icmp" then s ++ nwfilterIcmpAttrs r.from_port r.to_port
        else s
    s ++ "/>\n" ++ "</rule>\n"

/-- NWFilterFirewall.security_group_to_nwfilter_xml (lines 1572-1608):
the filter document for one security group. -/
def security_group_to_nwfilter_xml (use_ipv6 : Bool) (security_group_id : Nat)
    (rules : List SecurityGroupRule) : String :=
  let rule_xml := strConcat (rules.map (nwfilterRuleXml use_ipv6))
  let xml := "<filter name=\x27nova-secgroup-" ++ toString security_group_id ++ "\x27 "
  if use_ipv6 then xml ++ "chain=\x27root\x27>" ++ rule_xml ++ "</filter>"
  else xml ++ "chain=\x27ipv4\x27>" ++ rule_xml ++ "</filter>"

/-- The empty accept element a CIDR-less rule contributes. -/
def unconditionalAcceptRule : String :=
  "<rule action=\x27accept\x27 direction=\x27in\x27 priority=\x27300\x27></rule>\n"

/-! ## NWFilterFirewall engine state -/

/-- The hypervisor filter store: the names of the filter documents
currently defined through nwfilterDefineXML (each definition registers
its document under the name carried in its XML). -/
structure NWFilterState where
  defined : List String
  static_filters_configured : Bool
deriving DecidableEq

/-- NWFilterFirewall._define_filter (lines 1511-1515), by the name the
built document carries. -/
def defineFilter (st : NWFilterState) (name : String) : NWFilterState :=
  if name ∈ st.defined then st else { st with defined := st.defined ++ [name] }

/-- NWFilterFirewall._instance_filter_name (lines 1610-1611). -/
def instanceFilterName (inst : Instance) : String :=
  "nova-instance-" ++ inst.name

/-- NWFilterFirewall.prepare_instance_filter (lines 1521-1566): defines
one nova-secgroup-(id) document per security group of the instance, then
the per-instance secgroup document, then the per-instance document. -/
def nwfilterPrepareInstanceFilter (st : NWFilterState) (inst : Instance)
    (security_group_ids : List Nat) : NWFilterState :=
  let st := security_group_ids.foldl
    (fun st gid => defineFilter st ("nova-secgroup-" ++ toString gid)) st
  let st := defineFilter st (instanceFilterName inst ++ "-secgroup")
  defineFilter st (instanceFilterName inst)

/-- NWFilterFirewall.unfilter_instance (lines 1517-1519): the body is
pass, so the state is unchanged. -/
def nwfilterUnfilterInstance (st : NWFilterState) (_inst : Instance) :
    NWFilterState :=
  st

/-! ## ResourceReporter: get_cpu_info
(nova/virt/libvirt_conn.py lines 986-1042) -/

/-- What get_cpu_info reads from the parsed capabilities XML: the number
of host/cpu nodes, the optional arch, model and vendor texts, the
attribute list of the topology element when one exists, and the feature
names. -/
structure CapabilitiesCpu where
  cpuNodeCount : Nat
  arch : Option String
  modelName : Option String
  vendor : Option String
  topology : Option (List (String × String))
  features : List String
deriving DecidableEq

/-- The record serialized at the end of get_cpu_info. -/
structure CpuInfo where
  arch : Option String
  modelName : Option String
  vendor : Option String
  topology : List (String × String)
  features : List String
deriving DecidableEq

/-- The Invalid error kind of nova.exception. -/
inductive InvalidError
  | invalid (msg : String)
deriving DecidableEq

/-- Python set equality of two key lists. -/
def sameKeySet (a b : List String) : Bool :=
  a.all (fun k => b.contains k) && b.all (fun k => a.contains k)

/-- LibvirtConnection.get_cpu_info (lines 986-1042): reject when the
host/cpu node count is not one; collect the topology attributes when a
topology element exists and reject when their key set differs from
cores, sockets, threads; otherwise return the record. -/
def get_cpu_info (caps : CapabilitiesCpu) : Except InvalidError CpuInfo :=
  if caps.cpuNodeCount ≠ 1 then
    .error (.invalid ("cpu must be 1"))
  else
    match caps.topology with
    | some props =>
      if sameKeySet (props.map Prod.fst) ["cores", "sockets", "threads"] then
        .ok { arch := caps.arch, modelName := caps.modelName,
              vendor := caps.vendor, topology := props,
              features := caps.features }
      else .error (.invalid ("topology must have cores, sockets, threads"))
    | none =>
      .ok { arch := caps.arch, modelName := caps.modelName,
            vendor := caps.vendor, topology := [],
            features := caps.features }

/-! ## LibvirtConnection.destroy (lines 238-268) -/

/-- An error surfaced by the hypervisor control channel. -/
inductive HvError
  | notFound
  | other (msg : String)
deriving DecidableEq

/-- The power_state.SHUTDOWN constant of nova.compute.power_state. -/
def SHUTDOWN : Nat := 4

/-- The try/except around the lookupByName/destroy pair (lines 239-244):
the except clause catches every exception and does pass. -/
def destroyHypervisorPhase (res : Except HvError Unit) : Except HvError Unit :=
  match res with
  | .ok _ => .ok ()
  | .error _e => .ok ()

/-- The destroy polling loop (lines 250-261): each get_info observation
is persisted; the loop breaks on SHUTDOWN, and any get_info exception
persists SHUTDOWN and breaks. -/
def destroyPolling : List (Except HvError Nat) → List Nat
  | [] => []
  | .ok s :: rest => if s = SHUTDOWN then [s] else s :: destroyPolling rest
  | .error _ :: _ => [SHUTDOWN]

/-- What a completed destroy run did. -/
structure DestroyOutcome where
  observedStates : List Nat
  unfiltered : Bool
  cleaned : Bool
deriving DecidableEq

/-- LibvirtConnection.destroy (lines 238-268): the hypervisor destroy
result goes through the catch-all phase; teardown then polls, unfilters
the instance, and removes the directory when cleanup is set. -/
def destroy (res : Except HvError Unit) (polls : List (Except HvError Nat))
    (cleanup : Bool) : Except HvError DestroyOutcome :=
  match destroyHypervisorPhase res with
  | .error e => .error e
  | .ok _ =>
    .ok { observedStates := destroyPolling polls,
          unfiltered := true,
          cleaned := cleanup }

/-! ## LibvirtConnection._live_migration (lines 1214-1269) -/

/-- The orchestrator callbacks a migration run can invoke. -/
inductive MigrationEvent
  | recover
  | post
deriving DecidableEq

/-- The wait_for_live_migration polling callback (lines 1260-1266): each
poll observes the domain state, or NotFound (modelled as none) which
stops the timer and fires post_method. -/
def waitForLiveMigration : List (Option Nat) → List MigrationEvent
  | [] => []
  | some _ :: rest => waitForLiveMigration rest
  | none :: _ => [.post]

/-- LibvirtConnection._live_migration (lines 1214-1269): any exception
from the try block around the migrate call invokes recover_method and is
re-raised; on success the polling loop runs and fires post_method when
get_info raises NotFound. -/
def live_migration (migrateResult : Except HvError Unit)
    (polls : List (Option Nat)) :
    List MigrationEvent × Except HvError Unit :=
  match migrateResult with
  | .error e => ([.recover], .error e)
  | .ok _ => (waitForLiveMigration polls, .ok ())

/-! ## Disk image files and the base-image store
(nova/virt/libvirt_conn.py lines 536-650) -/

/-- The content of an on-disk image file: raw bytes of a given length, or
a qcow2 file whose blocks back onto another image (qemu-img create -f
qcow2 -o backing_file=..., line 568-570). -/
inductive ImageFile
  | raw (size : Nat)
  | cow (backing : ImageFile)
deriving DecidableEq

/-- The disk size a guest sees: a qcow2 image takes the virtual size of
its backing file. -/
def virtualSize : ImageFile → Nat
  | .raw n => n
  | .cow b => virtualSize b

/-- Modelled from the spec: images.fetch of nova/virt/images.py (not
under src/); per §6 it writes the image bytes to the target path
atomically on success.  The bytes have the size the image service holds. -/
def imagesFetch (imageSize : Nat) : ImageFile :=
  .raw imageSize

/-- Modelled from the spec: disk.extend of nova/virt/disk.py (not under
src/); it grows the file to the requested size and leaves a larger file
alone. -/
def diskExtend (f : ImageFile) (size : Nat) : ImageFile :=
  match f with
  | .raw n => .raw (max n size)
  | .cow b => .cow b

/-- LibvirtConnection._fetch_image (lines 574-578): fetch the image and,
when a size is given, extend it. -/
def fetch_image (imageSize : Nat) (size : Option Nat) : ImageFile :=
  match size with
  | none => imagesFetch imageSize
  | some s => diskExtend (imagesFetch imageSize) s

/-- Hexadecimal digit characters. -/
def hexDigit (n : Nat) : Char :=
  if n < 10 then Char.ofNat (48 + n) else Char.ofNat (87 + n)

/-- Hexadecimal digits of n, most significant first; the fuel starts at n
and bounds the recursion depth. -/
def toHexCore : Nat → Nat → List Char
  | 0, _ => []
  | fuel + 1, n =>
    if n = 0 then [] else toHexCore fuel (n / 16) ++ [hexDigit (n % 16)]

/-- The Python format string applied to the image ids (lines 613, 621,
629): lower-case hexadecimal padded with zeros to at least eight digits. -/
def hex8 (n : Nat) : String :=
  let ds := if n = 0 then [Char.ofNat 48] else toHexCore n n
  ⟨List.replicate (8 - ds.length) (Char.ofNat 48) ++ ds⟩

/-- The root-disk portion of LibvirtConnection._create_image (lines
629-634): the base key starts as the 8-hex-digit image id and the size as
minimum_root_size; for the m1.tiny flavor or the .rescue suffix the size
becomes None and the key gains the _sm suffix. -/
def rootDiskPlan (instance_type suffix : String) (image_id : Nat)
    (minRootSize : Nat) : String × Option Nat :=
  let root_fname := hex8 image_id
  let size : Option Nat := some minRootSize
  if instance_type == "m1.tiny" || suffix == ".rescue" then
    (root_fname ++ "_sm", none)
  else
    (root_fname, size)

/-- The root-disk materialization of _create_image composed with
_cache_image on a cache miss (lines 635-642): the base is fetched (and
extended when a size is requested) under the planned key, then the target
is a plain copy or a qcow2 on top of the base per use_cow_images. -/
def createImageRootDisk (use_cow : Bool) (imageSize : Nat)
    (instance_type suffix : String) (image_id minRootSize : Nat) :
    String × ImageFile :=
  let plan := rootDiskPlan instance_type suffix image_id minRootSize
  let base := fetch_image imageSize plan.2
  (plan.1, if use_cow then .cow base else base)

/-! ## _cache_image, sequential runs with a failing fetcher
(nova/virt/libvirt_conn.py lines 538-578) -/

/-- A filesystem as a mapping from path to image-file content. -/
abbrev Fs := List (String × ImageFile)

/-- Look a path up. -/
def fsGet (fs : Fs) (path : String) : Option ImageFile :=
  match fs.find? (fun p => p.1 == path) with
  | none => none
  | some p => some p.2

/-- Write a file (create or overwrite). -/
def fsPut (fs : Fs) (path : String) (f : ImageFile) : Fs :=
  match fsGet fs path with
  | some _ => fs.map fun p => if p.1 == path then (p.1, f) else p
  | none => fs ++ [(path, f)]

/-- How one invocation of the fetcher fn ends.  _fetch_image is
images.fetch followed by disk.extend: the fetch writes the full bytes to
the target atomically on success (spec §6), so a fetch failure leaves no
file, while an extend failure happens after the fetched bytes already sit
at the target path. -/
inductive FetchOutcome
  | ok (content : ImageFile)
  | fetchFail
  | extendFail (fetched : ImageFile)
deriving DecidableEq

/-- The _base path of a key (line 554-557). -/
def basePath (fname : String) : String :=
  "_base/" ++ fname

/-- One sequential call of LibvirtConnection._cache_image (lines
538-572) with the given fetcher outcome on a miss: return early when the
target exists; under the per-key lock fetch the base when it is absent,
writing directly to the final base path; afterwards copy, or build a
qcow2 on the base, into the target.  No branch removes the base path when
the fetcher raises. -/
def cache_image (fs : Fs) (target fname : String) (cow : Bool)
    (outcome : FetchOutcome) : Fs × Except Unit Unit :=
  if (fsGet fs target).isSome then (fs, .ok ()) else
  let base := basePath fname
  match fsGet fs base with
  | some content =>
    (fsPut fs target (if cow then .cow content else content), .ok ())
  | none =>
    match outcome with
    | .ok content =>
      let fs := fsPut fs base content
      (fsPut fs target (if cow then .cow content else content), .ok ())
    | .fetchFail => (fs, .error ())
    | .extendFail fetched => (fsPut fs base fetched, .error ())

/-! ## _cache_image under concurrent green threads
(nova/virt/libvirt_conn.py lines 536-572)

The process runs a cooperative scheduler (eventlet): control switches
only at blocking points.  Inside _cache_image those are the semaphore
acquire when the count is exhausted, the fetcher fn (network and disk
I/O), and the cp / qemu-img subprocess.  Everything between two such
points runs atomically.

The eventlet semaphore holds a counter and a waiter set: release
increments the counter and schedules a waiter, and locked() is
counter <= 0 — so right after a release the semaphore reports unlocked
even while a waiter has not yet reacquired it.  The with statement keeps
a direct reference to the semaphore object, while lines 564-565 look the
name up in the class-level dict again (a lookup that raises KeyError when
the entry was deleted by another call). -/

/-- An eventlet semaphore object: counter plus waiting thread ids. -/
structure Sem where
  counter : Nat
  waiters : List Nat
deriving DecidableEq

/-- Where a green thread inside _cache_image stands; each constructor is
a yield point (or a terminal). -/
inductive TPC
  | start
  | waiting
  | fetching
  | copying
  | finished
  | errKeyError
deriving DecidableEq

/-- One green thread calling _cache_image. -/
structure CacheThread where
  pc : TPC
  target : String
  cow : Bool
  held : Option Nat
deriving DecidableEq

/-- The process state shared by all _cache_image calls with one fname:
the filesystem, the heap of semaphore objects, the _image_sems entry for
the key (none when absent), the threads, and the number of fn
invocations started. -/
structure CacheConcState where
  fs : Fs
  semObjects : List Sem
  dictEntry : Option Nat
  threads : List CacheThread
  fetchCount : Nat
deriving DecidableEq

/-- End of the with block and lines 564-565, one atomic run: release the
held semaphore object, then look the dict entry up again — KeyError when
it is gone — and delete it when the current entry reports unlocked. -/
def cacheAfterCritical (s : CacheConcState) (tid : Nat) (t : CacheThread) :
    CacheConcState :=
  let s :=
    match t.held with
    | none => s
    | some k =>
      match s.semObjects[k]? with
      | none => s
      | some sem =>
        { s with semObjects := s.semObjects.set k { sem with counter := sem.counter + 1 } }
  match s.dictEntry with
  | none => { s with threads := s.threads.set tid { t with pc := .errKeyError } }
  | some j =>
    let sem := (s.semObjects[j]?).getD { counter := 0, waiters := [] }
    let s := if sem.counter > 0 then { s with dictEntry := none } else s
    { s with threads := s.threads.set tid { t with pc := .copying } }

/-- Line 562-563 after the lock is held: start fn when the base file is
absent (the next yield is inside fn); otherwise fall straight through to
the release and cleanup, ending at the copy yield. -/
def cacheEnterCritical (fname : String) (s : CacheConcState) (tid : Nat)
    (t : CacheThread) : CacheConcState :=
  if (fsGet s.fs (basePath fname)).isSome then
    cacheAfterCritical s tid t
  else
    { s with fetchCount := s.fetchCount + 1,
             threads := s.threads.set tid { t with pc := .fetching } }

/-- One scheduled step of the thread tid: run it from its current yield
point to the next one.  A thread that is not runnable (waiting on an
exhausted semaphore, or terminal) leaves the state unchanged. -/
def cacheStep (fname : String) (content : ImageFile) (s : CacheConcState)
    (tid : Nat) : CacheConcState :=
  match s.threads[tid]? with
  | none => s
  | some t =>
    match t.pc with
    | .finished => s
    | .errKeyError => s
    | .start =>
      if (fsGet s.fs t.target).isSome then
        { s with threads := s.threads.set tid { t with pc := .finished } }
      else
        let km : Nat × CacheConcState :=
          match s.dictEntry with
          | some k => (k, s)
          | none =>
            (s.semObjects.length,
             { s with
                 semObjects := s.semObjects ++ [{ counter := 1, waiters := [] }],
                 dictEntry := some s.semObjects.length })
        let k := km.1
        let s := km.2
        let t := { t with held := some k }
        let sem := (s.semObjects[k]?).getD { counter := 0, waiters := [] }
        if sem.counter > 0 then
          let s := { s with
            semObjects := s.semObjects.set k { sem with counter := sem.counter - 1 } }
          cacheEnterCritical fname s tid t
        else
          let s := { s with
            semObjects := s.semObjects.set k { sem with waiters := sem.waiters ++ [tid] } }
          { s with threads := s.threads.set tid { t with pc := .waiting } }
    | .waiting =>
      match t.held with
      | none => s
      | some k =>
        let sem := (s.semObjects[k]?).getD { counter := 0, waiters := [] }
        if sem.counter > 0 && sem.waiters.contains tid then
          let newSem : Sem :=
            { counter := sem.counter - 1,
              waiters := sem.waiters.filter (fun x => !(x == tid)) }
          let s := { s with semObjects := s.semObjects.set k newSem }
          cacheEnterCritical fname s tid t
        else s
    | .fetching =>
      let s := { s with fs := fsPut s.fs (basePath fname) content }
      cacheAfterCritical s tid t
    | .copying =>
      match fsGet s.fs (basePath fname) with
      | none => s
      | some b =>
        let s := { s with fs := fsPut s.fs t.target (if t.cow then .cow b else b) }
        { s with threads := s.threads.set tid { t with pc := .finished } }

/-- Run a schedule: at each tick the named thread takes one step. -/
def cacheRun (fname : String) (content : ImageFile) (s : CacheConcState)
    (sched : List Nat) : CacheConcState :=
  sched.foldl (cacheStep fname content) s

/-- Two concurrent _cache_image calls sharing the key 0000002a on an
empty cache, with distinct per-instance targets. -/
def twoCallState : CacheConcState :=
  { fs := [],
    semObjects := [],
    dictEntry := none,
    threads := [{ pc := .start, target := "t0", cow := false, held := none },
                { pc := .start, target := "t1", cow := false, held := none }],
    fetchCount := 0 }

/-- The schedule on which the second call crashes: thread 0 enters and
starts the fetch, thread 1 arrives and blocks on the semaphore, thread 0
finishes the fetch, releases and — because locked() is already false —
deletes the map entry, thread 1 reacquires and then hits the deleted
entry, thread 0 completes its copy. -/
def breakingSchedule : List Nat := [0, 1, 0, 1, 0]

/-! ## Helper lemmas -/

theorem strAppend_assoc (a b c : String) : a ++ b ++ c = a ++ (b ++ c) := by
  apply String.ext
  simp [String.data_append]

theorem strConcat_append (a b : List String) :
    strConcat (a ++ b) = strConcat a ++ strConcat b := by
  induction a with
  | nil =>
    apply String.ext
    simp [strConcat, String.data_append]
  | cons s ss ih =>
    simp [strConcat, ih, strAppend_assoc]

theorem sgRuleStep_foldl (rs : List SecurityGroupRule) :
    ∀ a4 a6 : List String,
    rs.foldl sgRuleStep (a4, a6) = (a4 ++ sgLinesV4 rs, a6 ++ sgLinesV6 rs) := by
  induction rs with
  | nil => simp [sgLinesV4, sgLinesV6]
  | cons r rs ih =>
    intro a4 a6
    rcases hc : r.cidr with _ | c
    · simp [sgRuleStep, hc, ih, sgLinesV4, sgLinesV6, List.filterMap_cons]
    · by_cases h4 : c.version = 4
      · simp [sgRuleStep, hc, h4, ih, sgLinesV4, sgLinesV6, List.append_assoc,
              List.filterMap_cons]
      · simp [sgRuleStep, hc, h4, ih, sgLinesV4, sgLinesV6, List.append_assoc,
              List.filterMap_cons]

theorem lookupChain_removeChain (t : IptablesTable) (n : String) :
    lookupChain (removeChain t n) n = none := by
  induction t with
  | nil => rfl
  | cons p t ih =>
    by_cases h : p.1 == n
    · simpa [removeChain, h] using ih
    · simpa [removeChain, lookupChain, List.filter_cons, h] using ih

/-! ## Claim theorems -/

/-- C1 (code_bug evidence): two concurrent _cache_image calls sharing
the key 0000002a on an empty cache, under the cooperative schedule in
which the second call arrives while the first is fetching.  The
fetcher does run exactly once, but the first call — seeing locked()
false right after its release, before the waiter reacquires — deletes
the _image_sems entry, so the second call raises KeyError at line 564
and returns without ever materializing its target: the claim that every
call returns with its target path present fails. -/
theorem c1_concurrent_cache_image_crash :
    (cacheRun ("0000002a") (.raw 5) twoCallState breakingSchedule).threads[1]? =
        some { pc := .errKeyError, target := "t1", cow := false, held := some 0 }
    ∧ fsGet (cacheRun ("0000002a") (.raw 5) twoCallState breakingSchedule).fs ("t1") = none
    ∧ (cacheRun ("0000002a") (.raw 5) twoCallState breakingSchedule).fetchCount = 1
    ∧ (cacheRun ("0000002a") (.raw 5) twoCallState breakingSchedule).threads[0]? =
        some { pc := .finished, target := "t0", cow := false, held := some 0 }
    ∧ fsGet (cacheRun ("0000002a") (.raw 5) twoCallState breakingSchedule).fs ("t0") =
        some (.raw 5) := by
  decide

/-- C2 (code_bug evidence): a _cache_image call whose fetcher fetches
the base bytes successfully and then fails in the extend step surfaces
the error, yet leaves the fetched file at the base path; a later
_cache_image call with the same key then observes the base as present,
skips the fetcher, and serves a copy of the leftover file. -/
theorem c2_cache_image_failure_residue :
    (cache_image [] ("i-1/disk") ("0000002a") false (.extendFail (.raw 5))).2 = .error ()
    ∧ fsGet (cache_image [] ("i-1/disk") ("0000002a") false (.extendFail (.raw 5))).1
        (basePath ("0000002a")) = some (.raw 5)
    ∧ (cache_image (cache_image [] ("i-1/disk") ("0000002a") false (.extendFail (.raw 5))).1
        ("i-2/disk") ("0000002a") false (.ok (.raw 9))).2 = .ok ()
    ∧ fsGet (cache_image (cache_image [] ("i-1/disk") ("0000002a") false
          (.extendFail (.raw 5))).1
        ("i-2/disk") ("0000002a") false (.ok (.raw 9))).1 ("i-2/disk") = some (.raw 5) :=
  ⟨rfl, rfl, rfl, rfl⟩

/-- C6 counterexample: a destroy run in which the hypervisor destroy
call fails with an error other than NotFound.  The claim says such an
error propagates to the caller; instead the catch-all except swallows it
and teardown runs the polling, unfilter and cleanup phases normally. -/
theorem c6_counterexample :
    destroy (.error (.other ("io failure"))) [.ok 4] true =
        .ok { observedStates := [4], unfiltered := true, cleaned := true }
    ∧ destroy (.error (.other ("io failure"))) [.ok 4] true ≠
        .error (.other ("io failure")) :=
  ⟨rfl, fun h => Except.noConfusion h⟩

/-- C6 (amended): every error from the hypervisor destroy call — the
NotFound of the claim included — is discarded by the except clause at
lines 242-244, and teardown always proceeds through the state-polling,
unfilter_instance and optional directory-cleanup phases; no error from
that site reaches the caller. -/
theorem c6_destroy_discards_any_error (res : Except HvError Unit)
    (polls : List (Except HvError Nat)) (cleanup : Bool) :
    destroy res polls cleanup =
      .ok { observedStates := destroyPolling polls,
            unfiltered := true, cleaned := cleanup } := by
  cases res <;> rfl

/-- C9: when the migrate call inside _live_migration raises any
exception, recover_method is invoked, the exception is re-raised to the
caller, and post_method does not fire in that run. -/
theorem c9_live_migration_recover_and_reraise (e : HvError)
    (polls : List (Option Nat)) :
    live_migration (.error e) polls = ([.recover], .error e)
    ∧ MigrationEvent.post ∉ (live_migration (.error e) polls).1
    ∧ MigrationEvent.recover ∈ (live_migration (.error e) polls).1 := by
  refine ⟨rfl, ?_, ?_⟩ <;> simp [live_migration]

/-- C3: for every instance, the rule lists built by instance_rules start
with the state-INVALID DROP rule, then the ESTABLISHED,RELATED ACCEPT
rule; every security-group accept line sits after those two and before
the last element, which is the terminal jump to sg-fallback; and the
sg-fallback chain installed by the driver constructor holds a single
DROP rule in each table. -/
theorem c3_instance_rules_ordering (env : InstanceRulesEnv) :
    (∃ mid4,
      (instance_rules env).1 =
        "-m state --state INVALID -j DROP" ::
          "-m state --state ESTABLISHED,RELATED -j ACCEPT" ::
            (mid4 ++ sgLinesV4 env.security_groups.flatten ++ ["-j $sg-fallback"]))
    ∧ (∃ mid6,
      (instance_rules env).2 =
        "-m state --state INVALID -j DROP" ::
          "-m state --state ESTABLISHED,RELATED -j ACCEPT" ::
            (mid6 ++ sgLinesV6 env.security_groups.flatten ++ ["-j $sg-fallback"]))
    ∧ lookupChain (iptablesDriverInit emptyManager).ipv4_filter ("sg-fallback") =
        some ["-j DROP"]
    ∧ lookupChain (iptablesDriverInit emptyManager).ipv6_filter ("sg-fallback") =
        some ["-j DROP"] := by
  refine ⟨?_, ?_, by decide, by decide⟩
  · refine ⟨("-s " ++ env.dhcp_server ++ " -p udp --sport 67 --dport 68 -j ACCEPT") ::
      (if env.allow_project_net_traffic then ["-s " ++ env.project_cidr ++ " -j ACCEPT"]
       else []), ?_⟩
    simp only [instance_rules, sgRuleStep_foldl]
    by_cases ha : env.allow_project_net_traffic <;>
      simp [ha, List.append_assoc]
  · refine ⟨(if env.use_ipv6 && pyTruthyStr env.gateway_v6 then
        ["-s " ++ env.gateway_v6.getD ("") ++ "/128 -p icmpv6 -j ACCEPT"] else []) ++
      (if env.use_ipv6 && env.allow_project_net_traffic then
        ["-s " ++ env.project_cidr_v6 ++ " -j ACCEPT"] else []), ?_⟩
    simp only [instance_rules, sgRuleStep_foldl]
    by_cases h6 : env.use_ipv6 <;>
      by_cases hg : pyTruthyStr env.gateway_v6 <;>
        by_cases ha : env.allow_project_net_traffic <;>
          simp [h6, hg, ha, List.append_assoc]

/-- C4 counterexample: on the hypervisor-filter back-end, after
preparing the filter for instance i-0007 (member of security group 9)
and then calling unfilter_instance, the engine state is unchanged — the
body of NWFilterFirewall.unfilter_instance is pass — so the named
per-instance filter documents are still present, contradicting the
claim that unfilter_instance removes them. -/
theorem c4_nwfilter_unfilter_keeps_documents :
    nwfilterUnfilterInstance
        (nwfilterPrepareInstanceFilter
          { defined := [], static_filters_configured := true }
          { id := 7, name := "i-0007" } [9])
        { id := 7, name := "i-0007" } =
      nwfilterPrepareInstanceFilter
        { defined := [], static_filters_configured := true }
        { id := 7, name := "i-0007" } [9]
    ∧ "nova-instance-i-0007" ∈
        (nwfilterUnfilterInstance
          (nwfilterPrepareInstanceFilter
            { defined := [], static_filters_configured := true }
            { id := 7, name := "i-0007" } [9])
          { id := 7, name := "i-0007" }).defined
    ∧ "nova-instance-i-0007-secgroup" ∈
        (nwfilterUnfilterInstance
          (nwfilterPrepareInstanceFilter
            { defined := [], static_filters_configured := true }
            { id := 7, name := "i-0007" } [9])
          { id := 7, name := "i-0007" }).defined := by
  refine ⟨rfl, by decide, by decide⟩

/-- C4 (amended): unfilter_instance removes the per-instance chains in
the host-packet-filter back-end — for a filtered instance the inst-(id)
chain is gone from the ipv4 table, and from the ipv6 table when use_ipv6
is set — while in the hypervisor-filter back-end unfilter_instance is a
no-op, so the named per-instance filter documents remain defined. -/
theorem c4_unfilter_amended :
    (∀ (st : IptablesDriverState) (inst : Instance) (use_ipv6 : Bool),
      inst.id ∈ st.instances →
        lookupChain (iptablesUnfilterInstance st inst use_ipv6).manager.ipv4_filter
            (instanceChainName inst) = none
        ∧ (use_ipv6 = true →
            lookupChain (iptablesUnfilterInstance st inst use_ipv6).manager.ipv6_filter
              (instanceChainName inst) = none))
    ∧ (∀ (st : NWFilterState) (inst : Instance),
        nwfilterUnfilterInstance st inst = st) := by
  constructor
  · intro st inst u6 hmem
    constructor
    · simp [iptablesUnfilterInstance, hmem, removeFiltersForInstance,
            lookupChain_removeChain]
    · intro h6
      simp [iptablesUnfilterInstance, hmem, removeFiltersForInstance, h6,
            lookupChain_removeChain]
  · intro st inst
    rfl

/-- C4 witness: the amended statement evaluated on instance i-0007
prepared on a fresh driver state. -/
theorem c4_unfilter_amended_witness :
    lookupChain
        (iptablesUnfilterInstance
          (iptablesPrepareInstanceFilter
            { manager := iptablesDriverInit emptyManager, instances := [] }
            { id := 7, name := "i-0007" } ("10.0.0.5") ("fe80::5")
            { allow_project_net_traffic := false, use_ipv6 := true,
              dhcp_server := "10.0.0.1", gateway_v6 := some ("fe80::1"),
              project_cidr := "10.0.0.0/24", project_cidr_v6 := "fd00::/48",
              security_groups := [] })
          { id := 7, name := "i-0007" } true).manager.ipv4_filter
        (instanceChainName { id := 7, name := "i-0007" }) = none
    ∧ nwfilterUnfilterInstance
        { defined := ["nova-base"], static_filters_configured := true }
        { id := 7, name := "i-0007" } =
      { defined := ["nova-base"], static_filters_configured := true } := by
  constructor
  · exact (c4_unfilter_amended.1
      (iptablesPrepareInstanceFilter
        { manager := iptablesDriverInit emptyManager, instances := [] }
        { id := 7, name := "i-0007" } ("10.0.0.5") ("fe80::5")
        { allow_project_net_traffic := false, use_ipv6 := true,
          dhcp_server := "10.0.0.1", gateway_v6 := some ("fe80::1"),
          project_cidr := "10.0.0.0/24", project_cidr_v6 := "fd00::/48",
          security_groups := [] })
      { id := 7, name := "i-0007" } true (by decide)).1
  · exact c4_unfilter_amended.2
      { defined := ["nova-base"], static_filters_configured := true }
      { id := 7, name := "i-0007" }

/-- C5: on a non-rescue creation (empty suffix) for a flavor other than
m1.tiny the root disk is keyed by the 8-hex-digit image id with no _sm
suffix and is post-extended, so its guest-visible size is at least
minimum_root_size; for the m1.tiny flavor or the .rescue suffix the key
carries the _sm suffix and no extend is requested (the materialized file
keeps the fetched size). -/
theorem c5_root_disk_key_and_size :
    (∀ (use_cow : Bool) (imageSize : Nat) (instance_type : String)
        (image_id minRootSize : Nat),
      instance_type ≠ "m1.tiny" →
        (createImageRootDisk use_cow imageSize instance_type ("") image_id
            minRootSize).1 = hex8 image_id
        ∧ minRootSize ≤
            virtualSize (createImageRootDisk use_cow imageSize instance_type ("")
              image_id minRootSize).2)
    ∧ (∀ (use_cow : Bool) (imageSize : Nat) (instance_type suffix : String)
        (image_id minRootSize : Nat),
      instance_type = "m1.tiny" ∨ suffix = ".rescue" →
        rootDiskPlan instance_type suffix image_id minRootSize =
          (hex8 image_id ++ "_sm", none)
        ∧ (createImageRootDisk use_cow imageSize instance_type suffix image_id
            minRootSize).2 =
          (if use_cow then .cow (.raw imageSize) else .raw imageSize)) := by
  constructor
  · intro use_cow imageSize instance_type image_id minRootSize hty
    have h1 : (instance_type == "m1.tiny") = false := beq_eq_false_iff_ne.mpr hty
    have h2 : (("" : String) == ".rescue") = false := by decide
    constructor
    · simp [createImageRootDisk, rootDiskPlan, h1, h2]
    · cases use_cow <;>
        simp [createImageRootDisk, rootDiskPlan, h1, h2, fetch_image,
              imagesFetch, diskExtend, virtualSize]
  · intro use_cow imageSize instance_type suffix image_id minRootSize hcase
    have hb : (instance_type == "m1.tiny" || suffix == ".rescue") = true := by
      rcases hcase with h | h <;> subst h <;> simp
    constructor
    · simp [rootDiskPlan, hb]
    · simp [createImageRootDisk, rootDiskPlan, hb, fetch_image, imagesFetch]

/-- C5 witness: image id 42 with the m1.small flavor gets the plain
8-hex key and a size of at least 10; image id 7 with the m1.tiny flavor
gets the _sm key and keeps the fetched size 3. -/
theorem c5_root_disk_key_and_size_witness :
    ((createImageRootDisk false 3 ("m1.small") ("") 42 10).1 = hex8 42
      ∧ 10 ≤ virtualSize (createImageRootDisk false 3 ("m1.small") ("") 42 10).2)
    ∧ (rootDiskPlan ("m1.tiny") ("") 7 10 = (hex8 7 ++ "_sm", none)
      ∧ (createImageRootDisk false 3 ("m1.tiny") ("") 7 10).2 = .raw 3) := by
  constructor
  · exact c5_root_disk_key_and_size.1 false 3 ("m1.small") 42 10 (by decide)
  · have h := c5_root_disk_key_and_size.2 false 3 ("m1.tiny") ("") 7 10 (Or.inl rfl)
    exact ⟨h.1, h.2⟩

/-- C7 counterexample: an icmp rule with from_port = -1 and
to_port = 5 over the CIDR 10.0.0.0/24.  The claim says a rule with
from_port = -1 carries no ICMP type or code match, but the
hypervisor-filter back-end emits a code attribute for it, because the
type and code attributes are guarded by two independent conditions. -/
theorem c7_nwfilter_code_without_type :
    nwfilterRuleXml false
        { protocol := "icmp",
          cidr := some { text := "10.0.0.0/24", version := 4, net := "10.0.0.0",
                         netmask := "255.255.255.0", prefixlen := "24" },
          from_port := -1, to_port := 5 } =
      "<rule action=\x27accept\x27 direction=\x27in\x27 priority=\x27300\x27><icmp srcipaddr=\x2710.0.0.0\x27 srcipmask=\x27255.255.255.0\x27 code=\x275\x27 />\n</rule>\n"
    ∧ nwfilterRuleXml false
        { protocol := "icmp",
          cidr := some { text := "10.0.0.0/24", version := 4, net := "10.0.0.0",
                         netmask := "255.255.255.0", prefixlen := "24" },
          from_port := -1, to_port := 5 } ≠
      "<rule action=\x27accept\x27 direction=\x27in\x27 priority=\x27300\x27><icmp srcipaddr=\x2710.0.0.0\x27 srcipmask=\x27255.255.255.0\x27 />\n</rule>\n" := by
  refine ⟨by decide, by decide⟩

/-- C7 (amended): in the host-packet-filter back-end the claim holds as
stated — from_port = -1 yields no type or code match whatever to_port
is, from_port set with to_port = -1 yields the type alone, and both set
yield type/code — while in the hypervisor-filter back-end the type and
code attributes are independent: the type is omitted exactly when
from_port = -1 and the code exactly when to_port = -1, so a rule with
from_port = -1 and to_port set carries a code-only match. -/
theorem c7_icmp_match_amended :
    (∀ from_port to_port : Int, from_port = -1 →
      icmpTypeArg from_port to_port = none)
    ∧ (∀ from_port to_port : Int, from_port ≠ -1 → to_port = -1 →
      icmpTypeArg from_port to_port = some (toString from_port))
    ∧ (∀ from_port to_port : Int, from_port ≠ -1 → to_port ≠ -1 →
      icmpTypeArg from_port to_port =
        some (toString from_port ++ "/" ++ toString to_port))
    ∧ (∀ (c : Cidr) (to_port : Int),
      ruleArgs { protocol := "icmp", cidr := some c,
                 from_port := -1, to_port := to_port } c =
        ["-p", if c.version == 6 then "icmpv6" else "icmp", "-s", c.text,
         "-j ACCEPT"])
    ∧ (∀ from_port to_port : Int, from_port = -1 → to_port ≠ -1 →
      nwfilterIcmpAttrs from_port to_port =
        "code=\x27" ++ toString to_port ++ "\x27 ")
    ∧ (∀ from_port to_port : Int, from_port ≠ -1 → to_port = -1 →
      nwfilterIcmpAttrs from_port to_port =
        "type=\x27" ++ toString from_port ++ "\x27 ")
    ∧ (∀ from_port to_port : Int, from_port ≠ -1 → to_port ≠ -1 →
      nwfilterIcmpAttrs from_port to_port =
        "type=\x27" ++ toString from_port ++ "\x27 " ++
          ("code=\x27" ++ toString to_port ++ "\x27 "))
    ∧ (∀ from_port to_port : Int, from_port = -1 → to_port = -1 →
      nwfilterIcmpAttrs from_port to_port = "") := by
  refine ⟨?_, ?_, ?_, ?_, ?_, ?_, ?_, ?_⟩
  · intro f t hf
    simp [icmpTypeArg, hf]
  · intro f t hf ht
    simp [icmpTypeArg, hf, ht]
  · intro f t hf ht
    simp [icmpTypeArg, hf, ht]
  · intro c t
    simp [ruleArgs, icmpTypeArg]
  · intro f t hf ht
    simp [nwfilterIcmpAttrs, hf, ht]
  · intro f t hf ht
    simp [nwfilterIcmpAttrs, hf, ht]
  · intro f t hf ht
    simp [nwfilterIcmpAttrs, hf, ht]
  · intro f t hf ht
    simp [nwfilterIcmpAttrs, hf, ht]

/-- C7 witness: the amended statement evaluated at type 8 and code 0,
and at the wildcard -1 values. -/
theorem c7_icmp_match_amended_witness :
    icmpTypeArg (-1) 5 = none
    ∧ icmpTypeArg 8 (-1) = some (toString (8 : Int))
    ∧ icmpTypeArg 8 0 = some (toString (8 : Int) ++ "/" ++ toString (0 : Int))
    ∧ nwfilterIcmpAttrs (-1) 5 = "code=\x27" ++ toString (5 : Int) ++ "\x27 "
    ∧ nwfilterIcmpAttrs 8 (-1) = "type=\x27" ++ toString (8 : Int) ++ "\x27 " := by
  refine ⟨c7_icmp_match_amended.1 (-1) 5 rfl,
          c7_icmp_match_amended.2.1 8 (-1) (by decide) rfl,
          c7_icmp_match_amended.2.2.1 8 0 (by decide) (by decide),
          c7_icmp_match_amended.2.2.2.2.1 (-1) 5 rfl (by decide),
          c7_icmp_match_amended.2.2.2.2.2.1 8 (-1) (by decide) rfl⟩

/-- C8 counterexample: a capabilities document with exactly one host cpu
node and no topology element.  The extracted topology is empty — it does
not contain the keys cores, sockets and threads — yet get_cpu_info does
not reject it: the key-set check only runs when a topology element is
present, so the record is returned with an empty topology. -/
theorem c8_no_topology_not_rejected :
    get_cpu_info
        { cpuNodeCount := 1, arch := some ("x86_64"), modelName := some ("Opteron"),
          vendor := some ("AMD"), topology := none, features := ["svm"] } =
      .ok { arch := some ("x86_64"), modelName := some ("Opteron"),
            vendor := some ("AMD"), topology := [], features := ["svm"] }
    ∧ sameKeySet (([] : List (String × String)).map Prod.fst)
        ["cores", "sockets", "threads"] = false :=
  ⟨rfl, by decide⟩

/-- C8 (amended): get_cpu_info rejects with Invalid when the cpu node
count differs from one, and when a topology element is present whose
attribute key set differs from cores, sockets, threads; a present
topology with exactly those keys is returned in the record, and an
absent topology element is not rejected — the record is returned with an
empty topology. -/
theorem c8_get_cpu_info_amended :
    (∀ caps : CapabilitiesCpu, caps.cpuNodeCount ≠ 1 →
      ∃ msg, get_cpu_info caps = .error (.invalid msg))
    ∧ (∀ (caps : CapabilitiesCpu) (props : List (String × String)),
      caps.cpuNodeCount = 1 → caps.topology = some props →
      sameKeySet (props.map Prod.fst) ["cores", "sockets", "threads"] = false →
      ∃ msg, get_cpu_info caps = .error (.invalid msg))
    ∧ (∀ (caps : CapabilitiesCpu) (props : List (String × String)),
      caps.cpuNodeCount = 1 → caps.topology = some props →
      sameKeySet (props.map Prod.fst) ["cores", "sockets", "threads"] = true →
      get_cpu_info caps =
        .ok { arch := caps.arch, modelName := caps.modelName,
              vendor := caps.vendor, topology := props,
              features := caps.features })
    ∧ (∀ caps : CapabilitiesCpu,
      caps.cpuNodeCount = 1 → caps.topology = none →
      get_cpu_info caps =
        .ok { arch := caps.arch, modelName := caps.modelName,
              vendor := caps.vendor, topology := [],
              features := caps.features }) := by
  refine ⟨?_, ?_, ?_, ?_⟩
  · intro caps hn
    exact ⟨"cpu must be 1", by simp [get_cpu_info, hn]⟩
  · intro caps props hn ht hk
    refine ⟨"topology must have cores, sockets, threads", ?_⟩
    simp [get_cpu_info, hn, ht, hk]
  · intro caps props hn ht hk
    simp [get_cpu_info, hn, ht, hk]
  · intro caps hn ht
    simp [get_cpu_info, hn, ht]

/-- C8 witness: the amended statement evaluated on a two-node document,
a document with a partial topology, a document with the full topology,
and a document with no topology element. -/
theorem c8_get_cpu_info_amended_witness :
    (∃ msg, get_cpu_info
        { cpuNodeCount := 2, arch := none, modelName := none, vendor := none,
          topology := none, features := [] } = .error (.invalid msg))
    ∧ (∃ msg, get_cpu_info
        { cpuNodeCount := 1, arch := none, modelName := none, vendor := none,
          topology := some [("cores", "2")], features := [] } =
        .error (.invalid msg))
    ∧ get_cpu_info
        { cpuNodeCount := 1, arch := some ("x86_64"), modelName := none,
          vendor := none,
          topology := some [("cores", "2"), ("sockets", "1"), ("threads", "2")],
          features := [] } =
      .ok { arch := some ("x86_64"), modelName := none, vendor := none,
            topology := [("cores", "2"), ("sockets", "1"), ("threads", "2")],
            features := [] }
    ∧ get_cpu_info
        { cpuNodeCount := 1, arch := none, modelName := none, vendor := none,
          topology := none, features := [] } =
      .ok { arch := none, modelName := none, vendor := none,
            topology := [], features := [] } := by
  refine ⟨c8_get_cpu_info_amended.1
            { cpuNodeCount := 2, arch := none, modelName := none, vendor := none,
              topology := none, features := [] } (by decide),
          c8_get_cpu_info_amended.2.1
            { cpuNodeCount := 1, arch := none, modelName := none, vendor := none,
              topology := some [("cores", "2")], features := [] }
            [("cores", "2")] rfl rfl (by decide),
          c8_get_cpu_info_amended.2.2.1
            { cpuNodeCount := 1, arch := some ("x86_64"), modelName := none,
              vendor := none,
              topology := some [("cores", "2"), ("sockets", "1"), ("threads", "2")],
              features := [] }
            [("cores", "2"), ("sockets", "1"), ("threads", "2")] rfl rfl (by decide),
          c8_get_cpu_info_amended.2.2.2
            { cpuNodeCount := 1, arch := none, modelName := none, vendor := none,
              topology := none, features := [] } rfl rfl⟩

/-- C10: a security-group rule whose cidr is absent still contributes an
accept element with no protocol, address, port or type condition — an
unconditional inbound accept — to the filter document built by
security_group_to_nwfilter_xml; the rule is not skipped. -/
theorem c10_cidrless_rule_unconditional_accept
    (use_ipv6 : Bool) (gid : Nat) (rules : List SecurityGroupRule)
    (r : SecurityGroupRule) (hmem : r ∈ rules) (hc : r.cidr = none) :
    ∃ pre post,
      security_group_to_nwfilter_xml use_ipv6 gid rules =
        pre ++ unconditionalAcceptRule ++ post := by
  obtain ⟨l1, l2, hsplit⟩ := List.append_of_mem hmem
  subst hsplit
  have hr : nwfilterRuleXml use_ipv6 r = unconditionalAcceptRule := by
    simp [nwfilterRuleXml, hc, unconditionalAcceptRule]
  cases use_ipv6
  · refine ⟨("<filter name=\x27nova-secgroup-" ++ toString gid ++ "\x27 " ++
        "chain=\x27ipv4\x27>") ++ strConcat (l1.map (nwfilterRuleXml false)),
      strConcat (l2.map (nwfilterRuleXml false)) ++ "</filter>", ?_⟩
    simp only [security_group_to_nwfilter_xml, Bool.false_eq_true, if_false,
               List.map_append, strConcat_append, List.map_cons, strConcat, hr]
    simp [strAppend_assoc]
  · refine ⟨("<filter name=\x27nova-secgroup-" ++ toString gid ++ "\x27 " ++
        "chain=\x27root\x27>") ++ strConcat (l1.map (nwfilterRuleXml true)),
      strConcat (l2.map (nwfilterRuleXml true)) ++ "</filter>", ?_⟩
    simp only [security_group_to_nwfilter_xml, if_true,
               List.map_append, strConcat_append, List.map_cons, strConcat, hr]
    simp [strAppend_assoc]

/-- C10 witness: the document for security group 9 holding one tcp rule
with no cidr contains the unconditional accept element. -/
theorem c10_cidrless_rule_unconditional_accept_witness :
    ∃ pre post,
      security_group_to_nwfilter_xml false 9
          [{ protocol := "tcp", cidr := none, from_port := 1, to_port := 2 }] =
        pre ++ unconditionalAcceptRule ++ post :=
  c10_cidrless_rule_unconditional_accept false 9
    [{ protocol := "tcp", cidr := none, from_port := 1, to_port := 2 }]
    { protocol := "tcp", cidr := none, from_port := 1, to_port := 2 }
    (by decide) rfl
